import Mathlib

/-!
Shallow embedding of the user-management service (src/utils.py, src/models.py,
src/db.py, src/routes/user_routes.py) for checking the repository's
specification.  Python strings are Lean `String`s (`len`, slicing and `lower`
act on characters, modelled for the ASCII range the spec exercises); the
SQLite `users` table is a list of rows plus the next AUTOINCREMENT id;
fallible Python functions become `Except`-valued Lean functions whose error
type mirrors the exception classes raised by the source.
-/

/-! ## Python string primitives -/

/-- Python whitespace characters removed by `str.strip()`. -/
def isPyWs (c : Char) : Bool :=
  c = ' ' || c = '\t' || c = '\n' || c = '\r' || c = '\x0b' || c = '\x0c'

/-- Strip `isPyWs` characters from both ends of a character list. -/
def stripList (l : List Char) : List Char :=
  ((l.dropWhile isPyWs).reverse.dropWhile isPyWs).reverse

/-- Python `str.strip()`. -/
def pyStrip (s : String) : String := String.mk (stripList s.data)

/-- Python slicing `s[:n]` (first `n` characters). -/
def strTake (s : String) (n : Nat) : String := String.mk (s.data.take n)

/-- Python `str.lower()` on one character, for the ASCII range. -/
def pyLowerChar (c : Char) : Char :=
  if 65 ≤ c.toNat ∧ c.toNat ≤ 90 then Char.ofNat (c.toNat + 32) else c

/-- Python `str.lower()`, for the ASCII range. -/
def pyLower (s : String) : String := String.mk (s.data.map pyLowerChar)

/-- Test whether the second list is a prefix of the first argument list. -/
def listStartsWith : List Char → List Char → Bool
  | [], _ => true
  | _ :: _, [] => false
  | a :: as, b :: bs => (a == b) && listStartsWith as bs

/-- Python `needle in hay` substring containment. -/
def strContains (hay needle : String) : Bool :=
  hay.data.tails.any (fun t => listStartsWith needle.data t)

/-- Split a character list on a separator character (like Python `str.split(sep)`,
used to decompose the regex matchers below). -/
def splitOnChar (sep : Char) : List Char → List (List Char)
  | [] => [[]]
  | c :: rest =>
    if c = sep then [] :: splitOnChar sep rest
    else match splitOnChar sep rest with
      | [] => [[c]]
      | h :: t => (c :: h) :: t

/-! ## src/utils.py -/

/-- From src/utils.py `sanitize_input`: strip whitespace and limit length.
The `isinstance(value, str)` branch is absent because the embedding is
string-typed. -/
def sanitize_input (value : String) (maxLength : Nat := 255) : String :=
  strTake (pyStrip value) maxLength

/-- From src/config.py `Config.MIN_PASSWORD_LENGTH` (default 8). -/
def MIN_PASSWORD_LENGTH : Nat := 8

/-- The punctuation class of the special-character regex in `validate_password`. -/
def specialChars : List Char :=
  ['!', '@', '#', '$', '%', '^', '&', '*', '(', ')', ',', '.', '?', '"', ':',
   '\x7b', '\x7d', '|', '<', '>']

/-- From src/utils.py `validate_password`.  Each `re.search` for a character
class becomes a `List.any` over the characters of the password (the source
classes `[A-Z]`, `[a-z]`, `\d` coincide with `Char.isUpper`/`isLower`/`isDigit`
on the ASCII range). -/
def validate_password (p : String) : Bool × Option String :=
  if p = "" then (false, some ("Password is required"))
  else if p.length < MIN_PASSWORD_LENGTH then
    (false, some ("Password must be at least " ++ toString MIN_PASSWORD_LENGTH ++
      " characters long"))
  else if 128 < p.length then (false, some ("Password must be less than 128 characters"))
  else if ¬ p.data.any Char.isUpper then
    (false, some ("Password must contain at least one uppercase letter"))
  else if ¬ p.data.any Char.isLower then
    (false, some ("Password must contain at least one lowercase letter"))
  else if ¬ p.data.any Char.isDigit then
    (false, some ("Password must contain at least one number"))
  else if ¬ p.data.any (fun c => specialChars.contains c) then
    (false, some ("Password must contain at least one special character"))
  else (true, none)

/-- Character class of `NAME_PATTERN = ^[a-zA-Z\s\-']{2,50}$` in src/utils.py. -/
def isNameChar (c : Char) : Bool := c.isAlpha || isPyWs c || c = '-' || c = '\''

/-- Full-string match of `NAME_PATTERN` from src/utils.py. -/
def nameMatches (s : String) : Bool :=
  decide (2 ≤ s.length) && decide (s.length ≤ 50) && s.data.all isNameChar

/-- Character class of the local part of `EMAIL_PATTERN` in src/utils.py. -/
def isLocalChar (c : Char) : Bool :=
  c.isAlpha || c.isDigit || c = '.' || c = '_' || c = '%' || c = '+' || c = '-'

/-- Character class of the domain part of `EMAIL_PATTERN` in src/utils.py. -/
def isDomainChar (c : Char) : Bool := c.isAlpha || c.isDigit || c = '.' || c = '-'

/-- Full-string match of the domain side `[a-zA-Z0-9.-]+\.[a-zA-Z]{2,}$` of
`EMAIL_PATTERN`: split at dots; the part after the last dot must be two or
more letters, and the (non-empty) part before it must stay in the domain
class. -/
def emailDomainMatches (d : String) : Bool :=
  let ps := splitOnChar ('.') d.data
  decide (2 ≤ ps.length) &&
  ps.dropLast.all (fun p => p.all isDomainChar) &&
  !(ps.dropLast == [[]]) &&
  (let last := ps.getLastD []
   decide (2 ≤ last.length) && last.all Char.isAlpha)

/-- Full-string match of `EMAIL_PATTERN = ^[a-zA-Z0-9._%+-]+@[a-zA-Z0-9.-]+\.[a-zA-Z]{2,}$`
from src/utils.py.  Neither character class contains `@`, so a match is a
split at the unique `@` with both sides matching their sub-patterns. -/
def emailMatches (s : String) : Bool :=
  match splitOnChar ('@') s.data with
  | [loc, dom] => !(loc == []) && loc.all isLocalChar && emailDomainMatches (String.mk dom)
  | _ => false

/-- From src/utils.py `validate_user_data`: presence, then name shape, then
email shape, then (when a password is supplied) password policy, returning the
message of the first check that fails. -/
def validate_user_data (name email : String) (password : Option String) :
    Bool × Option String :=
  if name = "" ∨ email = "" then (false, some ("Name and email are required"))
  else if pyStrip name = "" then
    (false, some ("Name cannot be empty or only whitespace"))
  else if (pyStrip name).length < 2 then
    (false, some ("Name must be at least 2 characters long"))
  else if 50 < (pyStrip name).length then
    (false, some ("Name must be less than 50 characters"))
  else if ¬ nameMatches (pyStrip name) then
    (false, some ("Name contains invalid characters"))
  else if pyLower (pyStrip email) = "" then
    (false, some ("Email cannot be empty or only whitespace"))
  else if 254 < (pyLower (pyStrip email)).length then
    (false, some ("Email address is too long"))
  else if ¬ emailMatches (pyLower (pyStrip email)) then
    (false, some ("Invalid email format"))
  else
    match password with
    | some p =>
      if (validate_password p).fst then (true, none) else (false, (validate_password p).snd)
    | none => (true, none)

/-- Specification-side reading of the presence rule of `validate_user_data`. -/
def rulePresence (name email : String) : Option String :=
  if name = "" ∨ email = "" then some ("Name and email are required") else none

/-- Specification-side reading of the name-shape rule of `validate_user_data`. -/
def ruleNameShape (name : String) : Option String :=
  if pyStrip name = "" then some ("Name cannot be empty or only whitespace")
  else if (pyStrip name).length < 2 then some ("Name must be at least 2 characters long")
  else if 50 < (pyStrip name).length then some ("Name must be less than 50 characters")
  else if ¬ nameMatches (pyStrip name) then some ("Name contains invalid characters")
  else none

/-- Specification-side reading of the email-shape rule of `validate_user_data`. -/
def ruleEmailShape (email : String) : Option String :=
  if pyLower (pyStrip email) = "" then some ("Email cannot be empty or only whitespace")
  else if 254 < (pyLower (pyStrip email)).length then some ("Email address is too long")
  else if ¬ emailMatches (pyLower (pyStrip email)) then some ("Invalid email format")
  else none

/-- Specification-side reading of the password-policy rule of `validate_user_data`
(checked only when a password is supplied). -/
def rulePasswordPolicy (password : Option String) : Option String :=
  match password with
  | some p => if (validate_password p).fst then none else (validate_password p).snd
  | none => none

/-- Result of checking an ordered list of rules: the message of the first rule
that fails, or success. -/
def firstFailing (rules : List (Option String)) : Bool × Option String :=
  match rules.findSome? id with
  | some m => (false, some m)
  | none => (true, none)

/-! ## Data model: the `users` table of src/db.py -/

/-- One row of the `users` table (timestamps are engine-managed and not
needed by any claim, so they are omitted). -/
structure UserRow where
  id : Int
  name : String
  email : String
  password : String
  deriving DecidableEq

/-- The state of the `users` table: its rows and the next AUTOINCREMENT id. -/
structure DB where
  rows : List UserRow
  nextId : Int
  deriving DecidableEq

/-- The exception classes raised by src/models.py and src/utils.py:
`ValueError`, `UserNotFoundError`, `UserAlreadyExistsError`, and the bare
`Exception` used for storage failures. -/
inductive ModelError where
  | valueError (msg : String)
  | userNotFound (msg : String)
  | userAlreadyExists (msg : String)
  | genericError (msg : String)
  deriving DecidableEq

/-- The `sqlite3.IntegrityError` raised by the engine, carrying its message. -/
inductive SqliteError where
  | integrityError (msg : String)
  deriving DecidableEq

deriving instance DecidableEq for Except

/-- Modelled from the engine plus the schema of `create_users_table`
(src/db.py): an INSERT enforces, in column order, the CHECK constraints
`length(trim(name)) > 0`, `length(trim(email)) > 0`,
`length(password) >= 60`, then the UNIQUE constraint on `email`; a violation
raises `IntegrityError` with SQLite's message for that constraint.  On
success the row is stored under the next AUTOINCREMENT id. -/
def insertUser (db : DB) (name email password : String) :
    Except SqliteError (DB × Int) :=
  if pyStrip name = "" then
    .error (.integrityError ("CHECK constraint failed: length(trim(name)) > 0"))
  else if pyStrip email = "" then
    .error (.integrityError ("CHECK constraint failed: length(trim(email)) > 0"))
  else if password.length < 60 then
    .error (.integrityError ("CHECK constraint failed: length(password) >= 60"))
  else if db.rows.any (fun r => r.email == email) then
    .error (.integrityError ("UNIQUE constraint failed: users.email"))
  else
    .ok ({ rows := db.rows ++ [⟨db.nextId, name, email, password⟩],
           nextId := db.nextId + 1 }, db.nextId)

/-- From src/models.py `create_user`: require the three inputs non-empty,
sanitize name (≤50) and lowercased email (≤254), insert, and translate an
`IntegrityError` whose lowercased text contains "email" into
`UserAlreadyExistsError`, every other one into a generic failure. -/
def create_user (name email password_hash : String) (db : DB) :
    Except ModelError (DB × Int) :=
  if name = "" ∨ email = "" ∨ password_hash = "" then
    .error (.valueError ("Name, email, and password_hash are required"))
  else
    match insertUser db (sanitize_input name 50) (sanitize_input (pyLower email) 254)
        password_hash with
    | .ok res => .ok res
    | .error (.integrityError m) =>
      if strContains (pyLower m) ("email") then
        .error (.userAlreadyExists ("Email already exists"))
      else
        .error (.genericError ("Failed to create user due to data constraint"))

/-- From src/models.py `update_user`: validate the id and the presence of
name/email, then inside one transaction check existence, check that the new
email is not taken by a different id, and run the UPDATE (whose CHECK
constraints on the new values surface as a generic failure, as the source
catches `sqlite3.Error`). -/
def update_user (user_id : Int) (name email : String) (db : DB) :
    Except ModelError DB :=
  if user_id ≤ 0 then .error (.valueError ("User ID must be a positive integer"))
  else if name = "" ∨ email = "" then .error (.valueError ("Name and email are required"))
  else if db.rows.any (fun r => r.id == user_id) then
    if db.rows.any (fun r => r.email == sanitize_input (pyLower email) 254 &&
        r.id != user_id) then
      .error (.userAlreadyExists ("Email already exists for another user"))
    else if pyStrip (sanitize_input name 50) = "" then
      .error (.genericError ("Failed to update user"))
    else if pyStrip (sanitize_input (pyLower email) 254) = "" then
      .error (.genericError ("Failed to update user"))
    else
      .ok { db with rows := db.rows.map (fun r =>
        if r.id == user_id then
          { r with name := sanitize_input name 50,
                   email := sanitize_input (pyLower email) 254 }
        else r) }
  else .error (.userNotFound ("User with ID " ++ toString user_id ++ " not found"))

/-- A user as returned by the queries that exclude the password column. -/
structure UserView where
  id : Int
  name : String
  email : String
  deriving DecidableEq

/-- From src/models.py `get_user_by_id`: reject a non-positive id before
touching storage, otherwise look the row up. -/
def get_user_by_id (user_id : Int) (db : DB) : Except ModelError (Option UserView) :=
  if user_id ≤ 0 then .error (.valueError ("User ID must be a positive integer"))
  else .ok ((db.rows.find? (fun r => r.id == user_id)).map
    (fun r => ⟨r.id, r.name, r.email⟩))

/-- A Python argument that is either a string or some non-string value
(the `isinstance` guard of `get_user_by_email` distinguishes exactly this). -/
inductive PyVal where
  | str (s : String)
  | nonStr
  deriving DecidableEq

/-- A user as returned by `get_user_by_email`: the password column is present
only when `include_password` was set. -/
structure UserOut where
  id : Int
  name : String
  email : String
  password : Option String
  deriving DecidableEq

/-- Row lookup by (already normalized) email, projecting the password column
per `include_password`. -/
def emailLookup (e : String) (includePassword : Bool) (db : DB) : Option UserOut :=
  (db.rows.find? (fun r => r.email == e)).map
    (fun r => ⟨r.id, r.name, r.email,
      if includePassword then some r.password else none⟩)

/-- From src/models.py `get_user_by_email`: reject an empty or non-string
argument with `ValueError` before any storage access, otherwise normalize the
email with `sanitize_input(email.lower())` (default length limit 255) and look
it up. -/
def get_user_by_email (email : PyVal) (includePassword : Bool) (db : DB) :
    Except ModelError (Option UserOut) :=
  match email with
  | .nonStr => .error (.valueError ("Email must be a non-empty string"))
  | .str s =>
    if s = "" then .error (.valueError ("Email must be a non-empty string"))
    else .ok (emailLookup (sanitize_input (pyLower s) 255) includePassword db)

/-- SQL `LIKE` matching as SQLite applies it to the search pattern of
`search_users_by_name`: `%` matches any sequence, `_` any single character,
and other characters match ASCII-case-insensitively. -/
def likeMatch : List Char → List Char → Bool
  | [], t => t.isEmpty
  | '%' :: ps, t => t.tails.any (fun s => likeMatch ps s)
  | '_' :: ps, t =>
    match t with
    | [] => false
    | _ :: ts => likeMatch ps ts
  | c :: ps, t =>
    match t with
    | [] => false
    | d :: ts => (pyLowerChar c == pyLowerChar d) && likeMatch ps ts

/-- Byte-order (BINARY collation) comparison of character lists, used for
`ORDER BY name`. -/
def charListLe : List Char → List Char → Bool
  | [], _ => true
  | _ :: _, [] => false
  | a :: as, b :: bs =>
    if a.toNat = b.toNat then charListLe as bs else decide (a.toNat < b.toNat)

/-- Insertion step of the `ORDER BY name` sort. -/
def insertByName (r : UserView) : List UserView → List UserView
  | [] => [r]
  | x :: xs =>
    if charListLe r.name.data x.name.data then r :: x :: xs else x :: insertByName r xs

/-- Sort query results by name ascending (`ORDER BY name`). -/
def sortByName : List UserView → List UserView
  | [] => []
  | x :: xs => insertByName x (sortByName xs)

/-- From src/models.py `search_users_by_name`: reject an empty pattern with
`ValueError`, sanitize it to at most 50 characters, and run
`name LIKE '%' || pattern || '%' ORDER BY name` — the pattern is interpolated
without escaping `%` or `_`. -/
def search_users_by_name (name : String) (db : DB) :
    Except ModelError (List UserView) :=
  if name = "" then .error (.valueError ("Name must be a non-empty string"))
  else
    .ok (sortByName ((db.rows.filter (fun r =>
      likeMatch ("%" ++ sanitize_input name 50 ++ "%").data r.name.data)).map
      (fun r => ⟨r.id, r.name, r.email⟩)))

/-- From src/utils.py `hash_password`: the bcrypt call is external, so its
outcome is a parameter — `some h` models `bcrypt.hashpw` returning `h`,
`none` models the library raising.  On an internal failure the source raises
`ValueError("Password hashing failed")`. -/
def hash_password (password : String) (bcryptResult : Option String) :
    Except ModelError String :=
  match bcryptResult with
  | some h => .ok h
  | none => .error (.valueError ("Password hashing failed"))

/-- The Python exception class each `ModelError` constructor embeds. -/
def errorKindName : ModelError → String
  | .valueError _ => "ValueError"
  | .userNotFound _ => "UserNotFoundError"
  | .userAlreadyExists _ => "UserAlreadyExistsError"
  | .genericError _ => "Exception"

/-- An HTTP response of the routing layer: status code and JSON body text. -/
structure HttpResponse where
  status : Nat
  body : String
  deriving DecidableEq

/-- Body of the 401 response of the login route (one shared literal for both
the unknown-email and the wrong-password case). -/
def invalidCredentialsBody : String :=
  "\x7b\"status\": \"failed\", \"error\": \"Invalid credentials\"\x7d"

/-- Body of the 200 response of the login route. -/
def loginSuccessBody (uid : Int) : String :=
  "\x7b\"status\": \"success\", \"user_id\": " ++ toString uid ++ "\x7d"

/-- From src/routes/user_routes.py `login`: missing fields give 400; then the
user is fetched (with password) and `verify_password` — the external bcrypt
check, passed in as `vf` — decides between the 200 success response and the
single 401 response shared by the no-such-user and wrong-password paths.
An exception from the repository gives 500. -/
def login (vf : String → String → Bool) (email password : String) (db : DB) :
    HttpResponse :=
  if email = "" ∨ password = "" then
    ⟨400, "\x7b\"error\": \"Email and password are required\"\x7d"⟩
  else
    match get_user_by_email (.str email) true db with
    | .error _ => ⟨500, "\x7b\"error\": \"Internal server error\"\x7d"⟩
    | .ok none => ⟨401, invalidCredentialsBody⟩
    | .ok (some u) =>
      match u.password with
      | some pw =>
        if vf password pw then ⟨200, loginSuccessBody u.id⟩
        else ⟨401, invalidCredentialsBody⟩
      | none => ⟨401, invalidCredentialsBody⟩

/-- Whether an `Except` result is a success. -/
def resultOk {α : Type} (r : Except ModelError α) : Bool :=
  match r with
  | .ok _ => true
  | .error _ => false

/-- A stored row satisfies the table's CHECK constraints. -/
def rowOk (r : UserRow) : Bool :=
  !(pyStrip r.name == "") && !(pyStrip r.email == "") && decide (60 ≤ r.password.length)

/-- Well-formedness of a table state: ids and emails are keys (the PRIMARY KEY
and UNIQUE constraints), and every row satisfies the CHECK constraints. -/
def DBwf (db : DB) : Prop :=
  (∀ a ∈ db.rows, ∀ b ∈ db.rows, a.id = b.id → a = b) ∧
  (∀ a ∈ db.rows, ∀ b ∈ db.rows, a.email = b.email → a = b) ∧
  (∀ r ∈ db.rows, rowOk r = true)

/-! ## Concrete fixtures -/

/-- A well-formed 60-character stand-in for a bcrypt hash. -/
def hash60 : String := String.mk (List.replicate 60 ('h'))

/-- The empty table. -/
def dbEmpty : DB := { rows := [], nextId := 1 }

/-- A table holding one user, Alice. -/
def db1 : DB := { rows := [⟨1, "Alice", "alice@example.com", hash60⟩], nextId := 2 }

/-- A table holding one user, Anna. -/
def dbAnna : DB := { rows := [⟨1, "Anna", "anna@example.com", hash60⟩], nextId := 2 }

/-- A concrete password verifier (plain equality) standing in for bcrypt in
closed witnesses. -/
def vf0 : String → String → Bool := fun p h => p == h

/-! ## Helper lemmas -/

theorem char_toNat_ofNat_valid (n : Nat) (h : n < 55296) : (Char.ofNat n).toNat = n := by
  unfold Char.ofNat
  split
  · rfl
  · rename_i hv
    exact absurd (Or.inl h) hv

theorem pyLowerChar_idem (c : Char) : pyLowerChar (pyLowerChar c) = pyLowerChar c := by
  unfold pyLowerChar
  split
  · rename_i h
    have hlt : c.toNat < 55296 := by
      have := c.val.toNat_lt
      omega
    have h1 : (Char.ofNat (c.toNat + 32)).toNat = c.toNat + 32 :=
      char_toNat_ofNat_valid _ (by omega)
    rw [if_neg (by omega)]
  · rfl

theorem mapLower_idem (l : List Char) :
    (l.map pyLowerChar).map pyLowerChar = l.map pyLowerChar := by
  induction l with
  | nil => rfl
  | cons a l ih => simp [List.map_cons, ih, pyLowerChar_idem]

theorem pyLower_idem (s : String) : pyLower (pyLower s) = pyLower s := by
  unfold pyLower
  exact String.ext (mapLower_idem s.data)

theorem pyLower_eq_empty_iff (s : String) : pyLower s = "" ↔ s = "" := by
  constructor
  · intro h
    have hd : s.data.map pyLowerChar = [] := congrArg String.data h
    exact String.ext (List.map_eq_nil_iff.mp hd)
  · intro h
    rw [h]
    rfl

theorem validate_password_snd_isSome (p : String)
    (h : (validate_password p).fst = false) :
    ∃ m, (validate_password p).snd = some m := by
  unfold validate_password at h ⊢
  split_ifs at h ⊢ <;> simp_all

/-! ## Claim theorems -/

/-- Claim C6: with the default minimum length 8, `validate_password` accepts a
password iff its length lies in [8, 128] and it contains at least one
uppercase letter, one lowercase letter, one digit and one character of the
defined punctuation set; in particular "Abcdef1" is rejected and "Abcdef1!"
accepted. -/
theorem claim_C6_password_policy :
    (∀ p : String, (validate_password p).fst = true ↔
      (8 ≤ p.length ∧ p.length ≤ 128 ∧
       p.data.any Char.isUpper = true ∧ p.data.any Char.isLower = true ∧
       p.data.any Char.isDigit = true ∧
       p.data.any (fun c => specialChars.contains c) = true)) ∧
    (validate_password ("Abcdef1")).fst = false ∧
    (validate_password ("Abcdef1!")).fst = true := by
  refine ⟨fun p => ?_, by decide, by decide⟩
  have hlen : p = "" → p.length = 0 := by
    intro h
    rw [h]
    rfl
  unfold validate_password MIN_PASSWORD_LENGTH
  split_ifs with h1 h2 h3 h4 h5 h6 h7 <;> simp_all

/-- Claim C7 counterexample: on an internal hashing failure `hash_password`
raises `ValueError` — exactly the exception class that caller-input
validation failures use (here `get_user_by_id` on an invalid id), so the
error kind does not differ from the validation kind. -/
theorem claim_C7_counterexample :
    hash_password ("secret") none = .error (.valueError ("Password hashing failed")) ∧
    get_user_by_id 0 dbEmpty =
      .error (.valueError ("User ID must be a positive integer")) ∧
    errorKindName (.valueError ("Password hashing failed")) =
      errorKindName (.valueError ("User ID must be a positive integer")) :=
  ⟨rfl, by decide, rfl⟩

/-- Claim C7 amended: an internal hashing failure surfaces as
`ValueError("Password hashing failed")` — the same exception class as
caller-input validation failures (not a distinct configuration/runtime
kind), distinguished from them only by its message. -/
theorem claim_C7_amended_same_kind (p : String) :
    hash_password p none = .error (.valueError ("Password hashing failed")) ∧
    errorKindName (.valueError ("Password hashing failed")) =
      errorKindName (.valueError ("User ID must be a positive integer")) ∧
    ("Password hashing failed" : String) ≠ "User ID must be a positive integer" :=
  ⟨rfl, rfl, by decide⟩

/-- Claim C9: `search_users_by_name` interpolates the caller's pattern into
LIKE as `%pattern%` without escaping, so `%` acts as a wildcard: the search
"A%a" matches the user named "Anna" even though "A%a" is not a literal
substring of "Anna". -/
theorem claim_C9_like_wildcards :
    search_users_by_name ("A%a") dbAnna = .ok [⟨1, "Anna", "anna@example.com"⟩] ∧
    strContains ("Anna") ("A%a") = false := by
  constructor
  · decide
  · decide

/-- Claim C10: an empty or non-string email argument makes `get_user_by_email`
fail with `ValueError` before touching storage — in the model, its result is
independent of the table state. -/
theorem claim_C10_get_by_email_guard (v : PyVal) (ip : Bool) (db db' : DB)
    (h : v = .nonStr ∨ v = .str "") :
    get_user_by_email v ip db =
      .error (.valueError ("Email must be a non-empty string")) ∧
    get_user_by_email v ip db = get_user_by_email v ip db' := by
  rcases h with h | h <;> subst h <;> exact ⟨rfl, rfl⟩

theorem claim_C10_witness :
    get_user_by_email .nonStr true db1 =
      .error (.valueError ("Email must be a non-empty string")) :=
  (claim_C10_get_by_email_guard .nonStr true db1 dbEmpty (Or.inl rfl)).1

set_option maxHeartbeats 1000000

/-- Claim C5: `validate_user_data` checks its rules in the fixed order
presence → name shape → email shape → password policy, returns the message of
the first rule that fails, and returns (true, none) when every rule passes;
as a Lean function the check is pure, so it has no side effects. -/
theorem claim_C5_validation_order (name email : String) (pw : Option String) :
    validate_user_data name email pw =
      firstFailing [rulePresence name email, ruleNameShape name,
        ruleEmailShape email, rulePasswordPolicy pw] := by
  unfold validate_user_data firstFailing rulePresence ruleNameShape ruleEmailShape
    rulePasswordPolicy
  simp only [List.findSome?_cons, List.findSome?_nil, id_eq]
  cases pw with
  | none => split_ifs <;> rfl
  | some p =>
    dsimp only
    by_cases h9 : (validate_password p).fst = true
    · rw [if_pos h9]
      split_ifs <;> rfl
    · obtain ⟨m, hm⟩ := validate_password_snd_isSome p (by simpa using h9)
      rw [if_neg h9, hm]
      split_ifs <;> rfl

/-- Claim C1: for a positive id and non-empty name/email whose sanitized name
still has content, `update_user` fails with `UserNotFoundError` when no row
has the id, fails with `UserAlreadyExistsError` when the normalized email
belongs to a different existing id, and succeeds when the email is the
caller's own current one; existence check, uniqueness check and mutation are
one atomic state transition of the model, reflecting the source's single
scoped transaction. -/
theorem claim_C1_update_semantics (uid : Int) (name email : String) (db : DB)
    (hwf : DBwf db) (hid : 0 < uid) (hn : name ≠ "") (he : email ≠ "")
    (hnok : pyStrip (sanitize_input name 50) ≠ "") :
    ((∀ r ∈ db.rows, r.id ≠ uid) →
      update_user uid name email db =
        .error (.userNotFound ("User with ID " ++ toString uid ++ " not found"))) ∧
    ((∃ r ∈ db.rows, r.id = uid) →
     (∃ r ∈ db.rows, r.email = sanitize_input (pyLower email) 254 ∧ r.id ≠ uid) →
      update_user uid name email db =
        .error (.userAlreadyExists ("Email already exists for another user"))) ∧
    ((∃ r ∈ db.rows, r.id = uid ∧ r.email = sanitize_input (pyLower email) 254) →
      resultOk (update_user uid name email db) = true) := by
  have hid' : ¬ uid ≤ 0 := by omega
  have hguard : ¬ (name = "" ∨ email = "") := by simp [hn, he]
  refine ⟨?_, ?_, ?_⟩
  · intro habs
    have hany : db.rows.any (fun r => r.id == uid) = false := by
      rw [List.any_eq_false]
      intro r hr
      simpa using habs r hr
    unfold update_user
    rw [if_neg hid', if_neg hguard, if_neg (by simp [hany])]
  · rintro ⟨r, hr, hrid⟩ ⟨r', hr', hre, hrne⟩
    have hany : db.rows.any (fun x => x.id == uid) = true := by
      rw [List.any_eq_true]
      exact ⟨r, hr, by simpa using hrid⟩
    have hany2 : db.rows.any (fun x =>
        x.email == sanitize_input (pyLower email) 254 && x.id != uid) = true := by
      rw [List.any_eq_true]
      refine ⟨r', hr', ?_⟩
      simp [hre, hrne]
    unfold update_user
    rw [if_neg hid', if_neg hguard, if_pos hany, if_pos hany2]
  · rintro ⟨r, hr, hrid, hre⟩
    have hany : db.rows.any (fun x => x.id == uid) = true := by
      rw [List.any_eq_true]
      exact ⟨r, hr, by simpa using hrid⟩
    have hany2 : db.rows.any (fun x =>
        x.email == sanitize_input (pyLower email) 254 && x.id != uid) = false := by
      rw [List.any_eq_false]
      intro x hx hcontra
      simp only [Bool.and_eq_true, beq_iff_eq, bne_iff_ne, ne_eq] at hcontra
      obtain ⟨hxe, hxid⟩ := hcontra
      have hxr : x = r := hwf.2.1 x hx r hr (by rw [hxe, hre])
      exact hxid (hxr ▸ hrid)
    have hrok := hwf.2.2 r hr
    simp only [rowOk, Bool.and_eq_true, Bool.not_eq_true', beq_eq_false_iff_ne,
      ne_eq, decide_eq_true_eq] at hrok
    have hemail_ne : pyStrip (sanitize_input (pyLower email) 254) ≠ "" := by
      rw [← hre]
      exact hrok.1.2
    unfold update_user
    rw [if_neg hid', if_neg hguard, if_pos hany,
      if_neg (by simp [hany2]), if_neg hnok, if_neg hemail_ne]
    rfl

theorem claim_C1_witness :
    resultOk (update_user 1 ("Alice") ("alice@example.com") db1) = true :=
  (claim_C1_update_semantics 1 ("Alice") ("alice@example.com") db1
    ⟨by decide, by decide, by decide⟩ (by decide) (by decide) (by decide)
    (by decide)).2.2 (by decide)

/-- Claim C2: `create_user` first sanitizes its inputs (name truncated to at
most 50 characters, email lowercased and truncated to at most 254); when the
normalized email is already stored it fails with `UserAlreadyExistsError`
(not a generic storage failure), and otherwise it returns the next
AUTOINCREMENT id together with the state holding the inserted row. -/
theorem claim_C2_create_semantics (name email password_hash : String) (db : DB)
    (hn : name ≠ "") (he : email ≠ "") (hp : password_hash ≠ "")
    (hnok : pyStrip (sanitize_input name 50) ≠ "")
    (heok : pyStrip (sanitize_input (pyLower email) 254) ≠ "")
    (hph : 60 ≤ password_hash.length) :
    ((∃ r ∈ db.rows, r.email = sanitize_input (pyLower email) 254) →
      create_user name email password_hash db =
        .error (.userAlreadyExists ("Email already exists"))) ∧
    ((∀ r ∈ db.rows, r.email ≠ sanitize_input (pyLower email) 254) →
      create_user name email password_hash db =
        .ok ({ rows := db.rows ++ [⟨db.nextId, sanitize_input name 50,
               sanitize_input (pyLower email) 254, password_hash⟩],
               nextId := db.nextId + 1 }, db.nextId)) := by
  have hguard : ¬ (name = "" ∨ email = "" ∨ password_hash = "") := by simp [hn, he, hp]
  have hph' : ¬ password_hash.length < 60 := by omega
  constructor
  · rintro ⟨r, hr, hre⟩
    have hany : db.rows.any (fun x =>
        x.email == sanitize_input (pyLower email) 254) = true := by
      rw [List.any_eq_true]
      exact ⟨r, hr, by simpa using hre⟩
    unfold create_user insertUser
    rw [if_neg hguard, if_neg hnok, if_neg heok, if_neg hph', if_pos hany]
    decide
  · intro hfresh
    have hany : db.rows.any (fun x =>
        x.email == sanitize_input (pyLower email) 254) = false := by
      rw [List.any_eq_false]
      intro x hx
      simpa using hfresh x hx
    unfold create_user insertUser
    rw [if_neg hguard, if_neg hnok, if_neg heok, if_neg hph',
      if_neg (by simp [hany])]

theorem claim_C2_witness :
    create_user ("Alice") ("A@B.com") hash60 dbEmpty =
      .ok ({ rows := dbEmpty.rows ++ [⟨dbEmpty.nextId, sanitize_input ("Alice") 50,
             sanitize_input (pyLower ("A@B.com")) 254, hash60⟩],
             nextId := dbEmpty.nextId + 1 }, dbEmpty.nextId) :=
  (claim_C2_create_semantics ("Alice") ("A@B.com") hash60 dbEmpty (by decide)
    (by decide) (by decide) (by decide) (by decide) (by decide)).2 (by decide)

/-- Claim C3: a login with an email matching no user and a login with an
existing email whose password check fails produce the identical external
result — one and the same 401 status and error body — so the caller cannot
distinguish the two cases; a correct (email, password) pair yields 200 with
the matching user's id. -/
theorem claim_C3_login_indistinguishable (vf : String → String → Bool) (db : DB)
    (password : String) (hp : password ≠ "") :
    (∀ emailA emailB u pw, emailA ≠ "" → emailB ≠ "" →
      get_user_by_email (.str emailA) true db = .ok none →
      get_user_by_email (.str emailB) true db = .ok (some u) →
      u.password = some pw → vf password pw = false →
      login vf emailA password db = login vf emailB password db ∧
      login vf emailA password db = ⟨401, invalidCredentialsBody⟩) ∧
    (∀ e u pw, e ≠ "" →
      get_user_by_email (.str e) true db = .ok (some u) →
      u.password = some pw → vf password pw = true →
      login vf e password db = ⟨200, loginSuccessBody u.id⟩) := by
  constructor
  · intro emailA emailB u pw hA hB hgA hgB hupw hvf
    have h1 : login vf emailA password db = ⟨401, invalidCredentialsBody⟩ := by
      unfold login
      rw [if_neg (by simp [hA, hp]), hgA]
    have h2 : login vf emailB password db = ⟨401, invalidCredentialsBody⟩ := by
      unfold login
      rw [if_neg (by simp [hB, hp]), hgB]
      dsimp only
      rw [hupw]
      dsimp only
      rw [if_neg (by simp [hvf])]
    exact ⟨h1.trans h2.symm, h1⟩
  · intro e u pw hene hg hupw hvf
    unfold login
    rw [if_neg (by simp [hene, hp]), hg]
    dsimp only
    rw [hupw]
    dsimp only
    rw [if_pos hvf]

theorem claim_C3_witness :
    login vf0 ("bob@example.com") ("wrong") db1 =
      login vf0 ("alice@example.com") ("wrong") db1 :=
  ((claim_C3_login_indistinguishable vf0 db1 ("wrong") (by decide)).1
    ("bob@example.com") ("alice@example.com")
    ⟨1, "Alice", "alice@example.com", some hash60⟩ hash60
    (by decide) (by decide) (by decide) (by decide) rfl (by decide)).1

/-- Claim C4: `get_user_by_email` normalizes its argument (trim plus
lowercase) before the lookup, and after a successful create the lowercased
form of the email used at creation fetches the created row (with the
password column excluded). -/
theorem claim_C4_email_normalized_lookup (name email password_hash : String)
    (db db' : DB) (uid : Int)
    (hlen : (pyStrip (pyLower email)).length ≤ 254)
    (hcreate : create_user name email password_hash db = .ok (db', uid)) :
    (∀ s : String, s ≠ "" → ∀ ip dbx, get_user_by_email (.str s) ip dbx =
      .ok (emailLookup (sanitize_input (pyLower s) 255) ip dbx)) ∧
    get_user_by_email (.str (pyLower email)) false db' =
      .ok (some ⟨uid, sanitize_input name 50,
        sanitize_input (pyLower email) 254, none⟩) := by
  refine ⟨fun s hs ip dbx => ?_, ?_⟩
  · unfold get_user_by_email
    dsimp only
    rw [if_neg hs]
  · have hguard : ¬ (name = "" ∨ email = "" ∨ password_hash = "") := by
      intro h
      unfold create_user at hcreate
      rw [if_pos h] at hcreate
      exact absurd hcreate (by simp)
    unfold create_user at hcreate
    rw [if_neg hguard] at hcreate
    cases hins : insertUser db (sanitize_input name 50)
        (sanitize_input (pyLower email) 254) password_hash with
    | error e =>
      rw [hins] at hcreate
      cases e with
      | integrityError m =>
        dsimp only at hcreate
        split_ifs at hcreate
    | ok res =>
      rw [hins] at hcreate
      dsimp only at hcreate
      rw [Except.ok.injEq] at hcreate
      subst hcreate
      unfold insertUser at hins
      split_ifs at hins with h2 h3 h4 h5
      rw [Except.ok.injEq, Prod.mk.injEq] at hins
      obtain ⟨hdb', huid⟩ := hins
      have hemail_ne : pyLower email ≠ "" := by
        intro h0
        exact hguard (Or.inr (Or.inl ((pyLower_eq_empty_iff email).mp h0)))
      unfold get_user_by_email
      dsimp only
      rw [if_neg hemail_ne]
      have hsan : sanitize_input (pyLower (pyLower email)) 255 =
          sanitize_input (pyLower email) 254 := by
        unfold sanitize_input strTake
        rw [pyLower_idem]
        have h254 : (pyStrip (pyLower email)).data.length ≤ 254 := hlen
        rw [List.take_of_length_le (Nat.le_trans h254 (by omega)),
            List.take_of_length_le h254]
      rw [hsan]
      unfold emailLookup
      subst hdb'
      dsimp only
      have h5b : db.rows.any (fun r =>
          r.email == sanitize_input (pyLower email) 254) = false := by
        revert h5
        cases db.rows.any (fun r =>
          r.email == sanitize_input (pyLower email) 254) <;> simp
      have hnone : db.rows.find? (fun r =>
          r.email == sanitize_input (pyLower email) 254) = none := by
        rw [List.find?_eq_none]
        intro x hx
        exact (List.any_eq_false.mp h5b) x hx
      rw [List.find?_append, hnone, Option.none_or]
      have hfind : List.find? (fun r => r.email == sanitize_input (pyLower email) 254)
          ([⟨db.nextId, sanitize_input name 50, sanitize_input (pyLower email) 254,
            password_hash⟩] : List UserRow) =
          some ⟨db.nextId, sanitize_input name 50, sanitize_input (pyLower email) 254,
            password_hash⟩ := by
        simp [List.find?]
      rw [hfind, ← huid]
      rfl

theorem claim_C4_witness :
    get_user_by_email (.str (pyLower ("A@B.com"))) false
      { rows := [⟨1, "Alice", "a@b.com", hash60⟩], nextId := 2 } =
      .ok (some ⟨1, sanitize_input ("Alice") 50,
        sanitize_input (pyLower ("A@B.com")) 254, none⟩) :=
  (claim_C4_email_normalized_lookup ("Alice") ("A@B.com") hash60 dbEmpty
    { rows := [⟨1, "Alice", "a@b.com", hash60⟩], nextId := 2 } 1
    (by decide) (by decide)).2

/-- Claim C8: `create_user` classifies an `IntegrityError` solely by whether
the lowercased message text contains "email": every such error becomes
`UserAlreadyExistsError("Email already exists")` — including the
non-empty-after-trim CHECK on the email column, triggered below by an
all-whitespace email on an empty table where no uniqueness conflict is
possible — while an `IntegrityError` not mentioning "email" (the name CHECK,
the password-length CHECK) becomes the generic storage failure. -/
theorem claim_C8_integrity_dispatch (name email password_hash : String)
    (db : DB) (m : String)
    (hn : name ≠ "") (he : email ≠ "") (hp : password_hash ≠ "")
    (hins : insertUser db (sanitize_input name 50)
      (sanitize_input (pyLower email) 254) password_hash =
        .error (.integrityError m)) :
    ((strContains (pyLower m) ("email") = true →
       create_user name email password_hash db =
         .error (.userAlreadyExists ("Email already exists"))) ∧
     (strContains (pyLower m) ("email") = false →
       create_user name email password_hash db =
         .error (.genericError ("Failed to create user due to data constraint")))) ∧
    create_user ("Bob") (" ") hash60 dbEmpty =
      .error (.userAlreadyExists ("Email already exists")) ∧
    create_user (" ") ("b@c.com") hash60 dbEmpty =
      .error (.genericError ("Failed to create user due to data constraint")) := by
  have hguard : ¬ (name = "" ∨ email = "" ∨ password_hash = "") := by simp [hn, he, hp]
  refine ⟨⟨?_, ?_⟩, by decide, by decide⟩
  · intro hcond
    unfold create_user
    rw [if_neg hguard, hins]
    dsimp only
    rw [if_pos hcond]
  · intro hcond
    unfold create_user
    rw [if_neg hguard, hins]
    dsimp only
    rw [if_neg (by simp [hcond])]

theorem claim_C8_witness :
    create_user ("Bob") ("alice@example.com") hash60 db1 =
      .error (.userAlreadyExists ("Email already exists")) :=
  ((claim_C8_integrity_dispatch ("Bob") ("alice@example.com") hash60 db1
      ("UNIQUE constraint failed: users.email") (by decide) (by decide) (by decide)
      (by decide)).1).1 (by decide)
